import Mathlib

/- Shallow embedding of the POSSUM survey state-tracking layer:
   automation/database_queries.py, automation/insert_database_script.py and
   possum_pipeline_control/ingest3Dpipeline.py.  Database tables are modelled
   as lists of records, SQL NULL as Option.none, and each SQL statement as a
   pure function on that state.  Python functions that can raise return
   Except; store-level failures are swallowed by the access layer exactly as
   execute_query and execute_update_query do in the source. -/

instance {ε α : Type} [DecidableEq ε] [DecidableEq α] : DecidableEq (Except ε α) := fun a b =>
  match a, b with
  | Except.ok x, Except.ok y =>
    if h : x = y then isTrue (congrArg Except.ok h) else isFalse (fun hc => h (Except.ok.inj hc))
  | Except.error x, Except.error y =>
    if h : x = y then isTrue (congrArg Except.error h)
    else isFalse (fun hc => h (Except.error.inj hc))
  | Except.ok _, Except.error _ => isFalse (fun hc => Except.noConfusion hc)
  | Except.error _, Except.ok _ => isFalse (fun hc => Except.noConfusion hc)

/-- ASCII lowercasing of a string, the meaning of SQL LOWER and of Python
str.lower on the status values used in this code base. -/
def strLower (s : String) : String := String.mk (s.data.map Char.toLower)

/-- Python str.isdigit on the cell values of the dashboard sheets: nonempty
and consisting of decimal digits only. -/
def strIsDigits (s : String) : Bool := !s.data.isEmpty && s.data.all (fun c => c.isDigit)

/-- Decimal value of a digit string, the PostgreSQL cast of a digit-only text
parameter to BIGINT. -/
def digitsVal (l : List Char) : Nat := l.foldl (fun n c => 10 * n + (c.toNat - 48)) 0

/-- Conversion of one spreadsheet cell to a BIGINT-or-NULL column value: the
insert script sends the cell when cell.isdigit() holds and NULL otherwise. -/
def parseSlot (s : String) : Option Int := if strIsDigits s then some (digitsVal s.data) else none

/-- Substring occurrence test on character lists. -/
def charsContain (pat : List Char) : List Char → Bool
  | [] => decide (pat = [])
  | c :: rest => pat.isPrefixOf (c :: rest) || charsContain pat rest

/-- Substring occurrence test on strings, the meaning of SQL LIKE with a
percent sign on both sides of the pattern. -/
def textContains (s pat : String) : Bool := charsContain pat.data s.data

/-- SQL condition x IS NULL OR x = empty string, on a nullable text column. -/
def isNullOrEmpty : Option String → Bool
  | none => true
  | some s => s = ""

/-- SQL condition LOWER(x) = lit; false when x is NULL. -/
def lowerEq (x : Option String) (lit : String) : Bool :=
  match x with
  | some s => strLower s = lit
  | none => false

/-- SQL condition LOWER(x) != lit; false when x is NULL, because a NULL
comparison is never true in a WHERE clause. -/
def lowerNe (x : Option String) (lit : String) : Bool :=
  match x with
  | some s => decide (strLower s ≠ lit)
  | none => false

/-- SQL condition LOWER(type) NOT LIKE the crosses-projection-boundary
pattern; false when type is NULL. -/
def typeNotBoundary : Option String → Bool
  | some t => !(textContains (strLower t) "crosses projection boundary")
  | none => false

/-- Insertion of an integer into a strictly ascending list, dropping
duplicates. -/
def insertAsc (x : Int) : List Int → List Int
  | [] => [x]
  | y :: ys => if x < y then x :: y :: ys else if x = y then y :: ys else y :: insertAsc x ys

/-- Meaning of SELECT DISTINCT ... ORDER BY on a single integer column: the
ascending duplicate-free list of the values. -/
def sortDedup (l : List Int) : List Int := l.foldr insertAsc []

/-- First-occurrence deduplication, the list of groups produced by a GROUP BY
clause. -/
def dedupAux {α : Type} [DecidableEq α] (seen : List α) : List α → List α
  | [] => []
  | x :: xs => if x ∈ seen then dedupAux seen xs else x :: dedupAux (x :: seen) xs

/-- Duplicate-free list of the elements of l, keeping first occurrences. -/
def dedupFirst {α : Type} [DecidableEq α] (l : List α) : List α := dedupAux [] l

/-- One row of possum.tile_3d_pipeline_band(n), restricted to the columns the
embedded statements read or write: tile_id, 3d_pipeline, 3d_pipeline_val,
3d_val_link and 3d_pipeline_ingest. -/
structure TileRow where
  tile_id : Int
  pipeline3d : Option String
  pipeline3dVal : Option String
  valLink3d : Option String
  pipeline3dIngest : Option String
  deriving DecidableEq

/-- One row of the possum.observation registry: name, sbid and the
aggregate-ingest flag cube_state. -/
structure ObservationRow where
  name : String
  sbid : Option String
  cube_state : Option String
  deriving DecidableEq

/-- One row of the possum.associated_tile mapping between observation names
and tile ids. -/
structure AssociatedTileRow where
  name : String
  tile : Int
  deriving DecidableEq

/-- One row of possum.observation_1d_pipeline_band(n): name, sbid, the
1d_pipeline_validation column and the single_sb_1d_pipeline column. -/
structure ObsStateRow where
  name : String
  sbid : Option String
  validation1d : Option String
  singleSb1d : Option String
  deriving DecidableEq

/-- One row of possum.partial_tile_1d_pipeline_band(n): observation, sbid,
the four tile slots, type, number_sources and the 1d_pipeline column. -/
structure PartialTileRow where
  observation : String
  sbid : Option String
  tile1 : Option Int
  tile2 : Option Int
  tile3 : Option Int
  tile4 : Option Int
  type : Option String
  numberSources : Option Int
  pipeline1d : Option String
  deriving DecidableEq

/-- The relational store: both band variants of each band-specific table,
plus the shared observation registry and the associated-tile mapping. -/
structure Db where
  observation : List ObservationRow
  associated : List AssociatedTileRow
  tileBand1 : List TileRow
  tileBand2 : List TileRow
  obsStateBand1 : List ObsStateRow
  obsStateBand2 : List ObsStateRow
  partialBand1 : List PartialTileRow
  partialBand2 : List PartialTileRow
  deriving DecidableEq

/-- The empty store. -/
def dbEmpty : Db :=
  { observation := [], associated := [], tileBand1 := [], tileBand2 := [],
    obsStateBand1 := [], obsStateBand2 := [], partialBand1 := [], partialBand2 := [] }

/-- Band-indexed access to the tile tables; a band outside 1 and 2 names a
table that does not exist, whose SELECT fails and yields no rows. -/
def tileTable (db : Db) : String → List TileRow
  | "1" => db.tileBand1
  | "2" => db.tileBand2
  | _ => []

/-- Writing back the tile table of a validated band. -/
def setTileTable (db : Db) (band : String) (rows : List TileRow) : Db :=
  if band = "1" then { db with tileBand1 := rows } else { db with tileBand2 := rows }

/-- Band-indexed access to the observation_1d_pipeline tables. -/
def obsStateTable (db : Db) : String → List ObsStateRow
  | "1" => db.obsStateBand1
  | "2" => db.obsStateBand2
  | _ => []

/-- Writing back the observation_1d_pipeline table of a validated band. -/
def setObsStateTable (db : Db) (band : String) (rows : List ObsStateRow) : Db :=
  if band = "1" then { db with obsStateBand1 := rows } else { db with obsStateBand2 := rows }

/-- Band-indexed access to the partial_tile_1d_pipeline tables. -/
def partialTable (db : Db) : String → List PartialTileRow
  | "1" => db.partialBand1
  | "2" => db.partialBand2
  | _ => []

/-- Model of execute_update_query: the cursor outcome is either an affected
row count or a raised store exception; the except branch prints the error and
the function returns the initial count 0.  No outcome propagates an error. -/
def execute_update_query (outcome : Except String Nat) : Nat :=
  match outcome with
  | Except.ok n => n
  | Except.error _ => 0

/-- Model of execute_query: on success a SELECT returns its fetched rows
(the some case) while a non-SELECT statement, whose cursor.description is
None, commits and leaves the result list empty; a raised store exception also
leaves the result list empty.  No outcome propagates an error. -/
def execute_query (α : Type) (outcome : Except String (Option (List α))) : List α :=
  match outcome with
  | Except.ok (some rows) => rows
  | Except.ok none => []
  | Except.error _ => []

/-- Message of the ValueError raised by validate_band_number. -/
def bandError : String := "ValueError: band_number must be either 1 or 2"

/-- Model of validate_band_number: raises ValueError unless str(band_number)
is the string 1 or the string 2.  Integer callers are modelled by passing
toString of the integer, the meaning of the str() coercion in the source. -/
def validate_band_number (band_number : String) : Except String Unit :=
  if band_number = "1" ∨ band_number = "2" then Except.ok () else Except.error bandError

/-- Comparison of the BIGINT tile_id column with a Python string parameter:
PostgreSQL casts the parameter to BIGINT, and a parameter that is not a digit
string fails the cast, which fails the statement; execute_update_query
swallows that failure into zero affected rows, the same observable outcome as
a comparison matching no row. -/
def intParamMatches (p : String) (id : Int) : Bool :=
  match parseSlot p with
  | some n => n = id
  | none => false

/-- Model of update_3d_pipeline_ingest: after band validation, UPDATE the
band tile table SET 3d_pipeline_ingest = status WHERE tile_id = tile_number,
returning the affected row count. -/
def update_3d_pipeline_ingest (tile_number band_number status : String) (db : Db) :
    Except String (Db × Nat) := do
  let _ ← validate_band_number band_number
  let rows := tileTable db band_number
  let updated := rows.map fun r =>
    if intParamMatches tile_number r.tile_id then { r with pipeline3dIngest := some status } else r
  pure (setTileTable db band_number updated,
    (rows.filter fun r => intParamMatches tile_number r.tile_id).length)

/-- Model of update_3d_pipeline_val.  The SQL placeholders are, in order, the
3d_pipeline_val value, the 3d_val_link value and the tile_id of the WHERE
clause, but the source builds params = (status, tile_number, val_link): the
link column therefore receives the tile number and the WHERE clause compares
tile_id against the validation link. -/
def update_3d_pipeline_val (tile_number band_number status val_link : String) (db : Db) :
    Except String (Db × Nat) := do
  let _ ← validate_band_number band_number
  let rows := tileTable db band_number
  let updated := rows.map fun r =>
    if intParamMatches val_link r.tile_id then
      { r with pipeline3dVal := some status, valLink3d := some tile_number }
    else r
  pure (setTileTable db band_number updated,
    (rows.filter fun r => intParamMatches val_link r.tile_id).length)

/-- Model of the INSERT ... ON CONFLICT (name) DO UPDATE upsert used for the
observation scalar columns: a fresh row is inserted when the name is absent,
otherwise the named column of the existing row is overwritten; either way the
statement reports one affected row. -/
def upsertObsRow (rows : List ObsStateRow) (name : String) (f : ObsStateRow → ObsStateRow)
    (fresh : ObsStateRow) : List ObsStateRow × Nat :=
  if rows.any fun r => r.name = name then
    (rows.map fun r => if r.name = name then f r else r, 1)
  else (rows ++ [fresh], 1)

/-- Model of update_1d_pipeline_validation_status: upsert on name, setting
the 1d_pipeline_validation column to the incoming status unconditionally. -/
def update_1d_pipeline_validation_status (field_name sbid band_number status : String)
    (db : Db) : Except String (Db × Nat) := do
  let _ ← validate_band_number band_number
  let res := upsertObsRow (obsStateTable db band_number) field_name
    (fun r => { r with validation1d := some status })
    { name := field_name, sbid := some sbid, validation1d := some status, singleSb1d := none }
  pure (setObsStateTable db band_number res.1, res.2)

/-- Model of update_single_sb_1d_pipeline_status: upsert on name, setting the
single_sb_1d_pipeline column to the incoming status unconditionally. -/
def update_single_sb_1d_pipeline_status (field_name sbid band_number status : String)
    (db : Db) : Except String (Db × Nat) := do
  let _ ← validate_band_number band_number
  let res := upsertObsRow (obsStateTable db band_number) field_name
    (fun r => { r with singleSb1d := some status })
    { name := field_name, sbid := some sbid, validation1d := none, singleSb1d := some status }
  pure (setObsStateTable db band_number res.1, res.2)

/-- Model of get_tiles_for_pipeline_run: after band validation, SELECT
DISTINCT tile_id from the band tile table joined through associated_tile to
observation, WHERE observation.cube_state = COMPLETED (an exact, case
sensitive SQL string equality) AND the 3d_pipeline column IS NULL or equals
the empty string, ORDER BY tile_id.  The source returns single-column rows;
the model returns the ids. -/
def get_tiles_for_pipeline_run (band_number : String) (db : Db) : Except String (List Int) := do
  let _ ← validate_band_number band_number
  let rows := tileTable db band_number
  let ready := rows.filter fun t =>
    (db.associated.any fun a => a.tile = t.tile_id &&
      (db.observation.any fun o => o.name = a.name && o.cube_state = some "COMPLETED")) &&
    isNullOrEmpty t.pipeline3d
  pure (sortDedup (ready.map fun t => t.tile_id))

/-- Model of get_tiles_for_ingest: after band validation, SELECT DISTINCT
tile_id WHERE LOWER(3d_pipeline_val) = good AND 3d_pipeline_ingest IS NULL or
empty, ORDER BY tile_id, flattened into a plain list of ids. -/
def get_tiles_for_ingest (band_number : String) (db : Db) : Except String (List Int) := do
  let _ ← validate_band_number band_number
  let rows := tileTable db band_number
  let ready := rows.filter fun t =>
    lowerEq t.pipeline3dVal "good" && isNullOrEmpty t.pipeline3dIngest
  pure (sortDedup (ready.map fun t => t.tile_id))

/-- Key of one GROUP BY group of get_observations_with_complete_partial_tiles:
pt.observation, pt.sbid, ob.1d_pipeline_validation and pt.1d_pipeline. -/
structure GroupKey where
  obs : String
  sbid : Option String
  validation : Option String
  status : Option String
  deriving DecidableEq

/-- Rows of the FROM pt, ob WHERE ob.name = pt.observation join, projected to
the GROUP BY columns. -/
def groupKeys (pt : List PartialTileRow) (obsSt : List ObsStateRow) : List GroupKey :=
  pt.flatMap fun p => (obsSt.filter fun ob => ob.name = p.observation).map fun ob =>
    { obs := p.observation, sbid := p.sbid, validation := ob.validation1d, status := p.pipeline1d }

/-- EXISTS subquery of the completion CASE expression: some row of the same
observation has a pipeline status whose lowercase value is not completed.
Rows with a NULL 1d_pipeline do not satisfy the inequality. -/
def blocksFull (pt : List PartialTileRow) (o : String) : Bool :=
  pt.any fun p2 => p2.observation = o && lowerNe p2.pipeline1d "completed"

/-- CASE expression of get_observations_with_complete_partial_tiles,
evaluated on one GROUP BY group. -/
def fullGroupFlag (pt : List PartialTileRow) (o : String) (v st : Option String) : Bool :=
  if blocksFull pt o then false
  else if isNullOrEmpty v && lowerEq st "completed" then true
  else false

/-- Model of get_observations_with_complete_partial_tiles: one output row per
GROUP BY group of the join, carrying the CASE boolean.  A band outside 1 and
2 names missing tables, the SELECT fails and execute_query yields no rows. -/
def get_observations_with_complete_partial_tiles (band_number : String) (db : Db) :
    List (String × Option String × Bool) :=
  (dedupFirst (groupKeys (partialTable db band_number) (obsStateTable db band_number))).map
    fun k => (k.obs, k.sbid,
      fullGroupFlag (partialTable db band_number) k.obs k.validation k.status)

/-- EXISTS subquery of get_observations_non_edge_rows: some partial-tile row
of the same observation joins an observation row with blank validation, has a
non-boundary type and a completed lowercase status. -/
def nonEdgeHit (pt : List PartialTileRow) (obsSt : List ObsStateRow) (o : String) : Bool :=
  pt.any fun pin => obsSt.any fun obIn =>
    obIn.name = pin.observation && typeNotBoundary pin.type &&
    lowerEq pin.pipeline1d "completed" && isNullOrEmpty obIn.validation1d &&
    pin.observation = o

/-- Model of get_observations_non_edge_rows: one output row per partial-tile
row of the band table (the query has no GROUP BY), carrying the existence
boolean of the subquery. -/
def get_observations_non_edge_rows (band_number : String) (db : Db) :
    List (String × Option String × Bool) :=
  (partialTable db band_number).map fun p =>
    (p.observation, p.sbid,
      nonEdgeHit (partialTable db band_number) (obsStateTable db band_number) p.observation)

/-- WHERE fragment of update_partial_tile_1d_pipeline_status for one tile
slot: the source emits tile(i) IS NULL when the Python value is None or the
empty string, and tile(i) = parameter otherwise. -/
def slotCond (param : Option String) (col : Option Int) : Bool :=
  match param with
  | none => col = none
  | some "" => col = none
  | some s =>
    match parseSlot s with
    | some n => col = some n
    | none => false

/-- UPDATE of the matched partial-tile rows, returning the new rows and the
affected count. -/
def updatePartialRows (field_name : String) (t1 t2 t3 t4 : Option String) (status : String)
    (rows : List PartialTileRow) : List PartialTileRow × Nat :=
  let hit := fun (p : PartialTileRow) =>
    p.observation = field_name && slotCond t1 p.tile1 && slotCond t2 p.tile2 &&
    slotCond t3 p.tile3 && slotCond t4 p.tile4
  (rows.map fun p => if hit p then { p with pipeline1d := some status } else p,
   (rows.filter hit).length)

/-- Model of update_partial_tile_1d_pipeline_status.  Unlike the other
operations this function never calls validate_band_number: for a band other
than 1 or 2 the UPDATE names a missing table, the store raises and
execute_update_query swallows the error into zero affected rows.  The Python
function only prints the affected count and returns None; the model exposes
the new state together with that count. -/
def update_partial_tile_1d_pipeline_status (field_name : String)
    (t1 t2 t3 t4 : Option String) (band_number status : String) (db : Db) : Db × Nat :=
  if band_number = "1" then
    let res := updatePartialRows field_name t1 t2 t3 t4 status db.partialBand1
    ({ db with partialBand1 := res.1 }, res.2)
  else if band_number = "2" then
    let res := updatePartialRows field_name t1 t2 t3 t4 status db.partialBand2
    ({ db with partialBand2 := res.1 }, res.2)
  else (db, 0)

/-- One data row of the Partial Tile Pipeline worksheet, header already
skipped: the insert script reads observation from column 0, the four tile
cells from columns 2 to 5, type from column 6, number_sources from column 7
and 1d_pipeline from column 8, which may be absent. -/
structure SheetTileRow where
  c0 : String
  c1 : String
  c2 : String
  c3 : String
  c4 : String
  c5 : String
  c6 : String
  c7 : String
  c8 : Option String
  deriving DecidableEq

/-- Values bound by insert_row_into_partial_tile_table for one sheet row.
The insert column list has no sbid column, so a freshly inserted row carries
NULL there; the type cell is always a string, so type is never NULL on this
write path. -/
def rowToRecord (row : SheetTileRow) : PartialTileRow :=
  { observation := row.c0
    sbid := none
    tile1 := parseSlot row.c2
    tile2 := parseSlot row.c3
    tile3 := parseSlot row.c4
    tile4 := parseSlot row.c5
    type := some row.c6
    numberSources := parseSlot row.c7
    pipeline1d := row.c8 }

/-- COALESCE of one tile slot with the sentinel used by the generated key. -/
def keyPart : Option Int → String
  | none => "-1"
  | some n => toString n

/-- The STORED generated_key column: COALESCE of each natural-key component
with its sentinel, joined with vertical bars. -/
def genKey (r : PartialTileRow) : String :=
  r.observation ++ "|" ++ keyPart r.tile1 ++ "|" ++ keyPart r.tile2 ++ "|" ++
    keyPart r.tile3 ++ "|" ++ keyPart r.tile4 ++ "|" ++
    (match r.type with
     | none => ""
     | some t => t)

/-- First CHECK constraint of partial_tile_1d_pipeline_band(n): no two
populated tile slots hold the same value.  Under SQL three-valued logic a
NULL disjunct lets the constraint pass, which the isSome guards reproduce. -/
def distinctSlots (r : PartialTileRow) : Bool :=
  !((r.tile1.isSome && r.tile1 = r.tile2) ||
    (r.tile1.isSome && r.tile1 = r.tile3) ||
    (r.tile1.isSome && r.tile1 = r.tile4) ||
    (r.tile2.isSome && r.tile2 = r.tile3) ||
    (r.tile2.isSome && r.tile2 = r.tile4) ||
    (r.tile3.isSome && r.tile3 = r.tile4))

/-- Second CHECK constraint: four populated slots force a corner type.  A
NULL type makes the IN comparison NULL and the constraint passes. -/
def checkCorner (r : PartialTileRow) : Bool :=
  !(r.tile1.isSome && r.tile2.isSome && r.tile3.isSome && r.tile4.isSome) ||
  (match r.type with
   | some t => strLower t = "corner" || strLower t = "corner - crosses projection boundary!"
   | none => true)

/-- Third CHECK constraint: exactly the first two slots populated forces an
edge type; NULL type passes as above. -/
def checkEdge (r : PartialTileRow) : Bool :=
  !(r.tile1.isSome && r.tile2.isSome && !r.tile3.isSome && !r.tile4.isSome) ||
  (match r.type with
   | some t => strLower t = "edge" || strLower t = "edge - crosses projection boundary!"
   | none => true)

/-- Fourth CHECK constraint: only the first slot populated forces the center
type; NULL type passes as above. -/
def checkCenter (r : PartialTileRow) : Bool :=
  !(r.tile1.isSome && !r.tile2.isSome && !r.tile3.isSome && !r.tile4.isSome) ||
  (match r.type with
   | some t => strLower t = "center"
   | none => true)

/-- Conjunction of the four CHECK constraints of the partial-tile table. -/
def rowChecks (r : PartialTileRow) : Bool :=
  distinctSlots r && checkCorner r && checkEdge r && checkCenter r

/-- Model of one INSERT ... ON CONFLICT (generated_key) DO NOTHING statement:
a CHECK violation fails the statement, a duplicate generated key is silently
ignored, otherwise the row is appended. -/
def insertPartialRow (tbl : List PartialTileRow) (r : PartialTileRow) :
    Option (List PartialTileRow) :=
  if rowChecks r then
    if tbl.any fun x => genKey x = genKey r then some tbl else some (tbl ++ [r])
  else none

/-- Model of execute_batch over a snapshot inside one transaction: the
statements run in order and any failure aborts and rolls back the import. -/
def importBatch (tbl : List PartialTileRow) : List PartialTileRow → Option (List PartialTileRow)
  | [] => some tbl
  | r :: rs =>
    match insertPartialRow tbl r with
    | none => none
    | some t2 => importBatch t2 rs

/-- Model of insert_partial_tile_data: the sheet data rows are converted to
column values and batch-inserted with ON CONFLICT DO NOTHING. -/
def insert_partial_tile_data (tbl : List PartialTileRow) (sheet : List SheetTileRow) :
    Option (List PartialTileRow) :=
  importBatch tbl (sheet.map rowToRecord)

/-- Model of util.get_band_number: 1 for the 943MHz band string, 2 for any
other band string. -/
def get_band_number (band : String) : String := if band = "943MHz" then "1" else "2"

/-- One row of a Survey Tiles validation worksheet, restricted to the two
cells the ingest trigger reads and writes. -/
structure SheetRow where
  tile_id : String
  ingest3d : String
  deriving DecidableEq

/-- State touched by update_validation_spreadsheet: both band worksheets and
the database. -/
structure IngestEnv where
  sheetBand1 : List SheetRow
  sheetBand2 : List SheetRow
  db : Db
  deriving DecidableEq

/-- Result of one update_validation_spreadsheet call: the raised Python
error, if any, together with the final state. -/
structure IngestOutcome where
  error : Option String
  env : IngestEnv
  deriving DecidableEq

/-- Worksheet of the given band number. -/
def bandSheet (env : IngestEnv) (bandNum : String) : List SheetRow :=
  if bandNum = "1" then env.sheetBand1 else env.sheetBand2

/-- Writing back the worksheet of the given band number. -/
def setBandSheet (env : IngestEnv) (bandNum : String) (sheet : List SheetRow) : IngestEnv :=
  if bandNum = "1" then { env with sheetBand1 := sheet } else { env with sheetBand2 := sheet }

/-- Update of the 3d_pipeline_ingest cell of the first row matching the tile
number, the cell write performed through the worksheet API. -/
def updateIngestCell : List SheetRow → String → String → List SheetRow
  | [], _, _ => []
  | r :: rs, tid, status =>
    if r.tile_id = tid then { r with ingest3d := status } :: rs
    else updateIngestCell rs tid status |> fun rest => r :: rest

/-- Message of the ValueError raised when the stored prior status is not
IngestRunning. -/
def ingestGuardError : String := "ValueError: found an ingest status other than IngestRunning"

/-- Message of the ValueError raised when the tile is absent from the
worksheet. -/
def tileNotFoundError : String := "ValueError: tile not found in the sheet"

/-- Message of the TypeError raised because the source calls
db.update_3d_pipeline_ingest without its conn argument. -/
def missingConnError : String := "TypeError: update_3d_pipeline_ingest called without conn"

/-- Model of update_validation_spreadsheet in ingest3Dpipeline.py.  The first
worksheet row matching the tile number is located; absence raises ValueError.
Outside test mode a stored ingest status different from IngestRunning raises
ValueError before any write.  Otherwise the worksheet cell is updated and the
subsequent db.update_3d_pipeline_ingest call, written without its conn
argument, raises TypeError after the sheet write and before any database
write. -/
def update_validation_spreadsheet (tile_number band status : String) (test : Bool)
    (env : IngestEnv) : IngestOutcome :=
  let bandNum := get_band_number band
  let sheet := bandSheet env bandNum
  match sheet.find? fun r => r.tile_id = tile_number with
  | none => { error := some tileNotFoundError, env := env }
  | some row =>
    if !test && !(row.ingest3d = "IngestRunning") then
      { error := some ingestGuardError, env := env }
    else
      { error := some missingConnError,
        env := setBandSheet env bandNum (updateIngestCell sheet tile_number status) }

/-- Readiness for stage 3 as claim C1 words it, stated from the specification
for comparison with get_tiles_for_pipeline_run: the aggregate-ingest flag of
an associated observation equals COMPLETED case-insensitively and the stage-3
field of the tile is NULL or empty or whitespace-only. -/
def readyForStage3Claimed (db : Db) (t : TileRow) : Bool :=
  (db.associated.any fun a => a.tile = t.tile_id &&
    (db.observation.any fun o => o.name = a.name && lowerEq o.cube_state "completed")) &&
  (match t.pipeline3d with
   | none => true
   | some s => s.data.all fun c => c.isWhitespace)

/-- Non-edge completeness as claim C2 words it, stated from the specification
for comparison with get_observations_non_edge_rows: every sibling of the
observation that does not cross a projection boundary reads completed, and
the observation validation field is blank. -/
def nonEdgeCompleteClaimed (pt : List PartialTileRow) (obsSt : List ObsStateRow)
    (o : String) : Bool :=
  (pt.all fun p2 => !(p2.observation = o) ||
    (match p2.type with
     | some ty => textContains (strLower ty) "crosses projection boundary" ||
         lowerEq p2.pipeline1d "completed"
     | none => lowerEq p2.pipeline1d "completed")) &&
  (obsSt.all fun ob => !(ob.name = o) || isNullOrEmpty ob.validation1d)

/-- A tile row with the given id and every status column NULL. -/
def tileBlank (id : Int) : TileRow :=
  { tile_id := id, pipeline3d := none, pipeline3dVal := none, valLink3d := none,
    pipeline3dIngest := none }

/-- Store used against claim C1: observation EMU_A carries the mixed-case
flag Completed and its tile 1 has a NULL stage-3 field; observation EMU_B is
COMPLETED and its tile 2 has a whitespace-only stage-3 field. -/
def dbC1 : Db :=
  { dbEmpty with
    observation := [
      { name := "EMU_A", sbid := some "100", cube_state := some "Completed" },
      { name := "EMU_B", sbid := some "101", cube_state := some "COMPLETED" } ],
    associated := [ { name := "EMU_A", tile := 1 }, { name := "EMU_B", tile := 2 } ],
    tileBand1 := [ tileBlank 1, { tileBlank 2 with pipeline3d := some " " } ] }

/-- Store used against claim C2: observation F1 has blank validation and two
partial-tile rows, one Completed center row and one Running edge row. -/
def dbC2 : Db :=
  { dbEmpty with
    obsStateBand1 := [ { name := "F1", sbid := some "SB", validation1d := none,
                         singleSb1d := none } ],
    partialBand1 := [
      { observation := "F1", sbid := some "SB", tile1 := some 1, tile2 := none,
        tile3 := none, tile4 := none, type := some "center", numberSources := some 5,
        pipeline1d := some "Completed" },
      { observation := "F1", sbid := some "SB", tile1 := some 2, tile2 := some 3,
        tile3 := none, tile4 := none, type := some "edge", numberSources := some 4,
        pipeline1d := some "Running" } ] }

/-- Environment used for the claim C3 witness: tile 1240 is recorded with a
prior ingest status IngestFailed. -/
def envC3 : IngestEnv :=
  { sheetBand1 := [ { tile_id := "1240", ingest3d := "IngestFailed" } ],
    sheetBand2 := [], db := dbEmpty }

/-- Store used for the claim C4 witness: four band-1 tiles covering the Good,
GOOD, Bad and pending validation cases. -/
def dbC4 : Db :=
  { dbEmpty with
    tileBand1 := [
      { tileBlank 20 with pipeline3dVal := some "Good" },
      { tileBlank 19 with pipeline3dVal := some "GOOD", pipeline3dIngest := some "" },
      { tileBlank 18 with pipeline3dVal := some "Bad" },
      { tileBlank 17 with pipeline3dVal := some "Good", pipeline3dIngest := some "Ingested" } ] }

/-- Store used against claim C5: observation F2 already carries the manually
entered values Good and Done. -/
def dbC5 : Db :=
  { dbEmpty with
    obsStateBand1 := [ { name := "F2", sbid := some "S2", validation1d := some "Good",
                         singleSb1d := some "Done" } ] }

/-- Sheet row of the legal boundary-corner scenario of claim C8, with four
distinct populated slots. -/
def sheetCornerRow : SheetTileRow :=
  { c0 := "1412-28", c1 := "", c2 := "11791", c3 := "11792", c4 := "11852",
    c5 := "11853", c6 := "corner - crosses projection boundary!", c7 := "10",
    c8 := some "Running" }

/-- Sheet row with the same four slots but type center, which the shape
constraint must reject. -/
def sheetCenterRow : SheetTileRow :=
  { sheetCornerRow with c6 := "center" }

/-- Snapshot used for the claim C7 witness. -/
def sheetC7 : List SheetTileRow :=
  [ sheetCornerRow,
    { c0 := "1412-28", c1 := "", c2 := "11791", c3 := "", c4 := "", c5 := "",
      c6 := "center", c7 := "3", c8 := none } ]

/-- Result of importing sheetC7 into an empty table. -/
def tblC7 : List PartialTileRow := sheetC7.map rowToRecord

/-- State of dbC5 after the blank-validation upsert of claim C5: the stored
Good value has been replaced by the empty string. -/
def dbC5afterVal : Db :=
  { dbEmpty with
    obsStateBand1 := [ { name := "F2", sbid := some "S2", validation1d := some "",
                         singleSb1d := some "Done" } ] }

/-- State of dbC5 after the blank single-block upsert of claim C5: the stored
Done value has been replaced by the empty string. -/
def dbC5afterSb : Db :=
  { dbEmpty with
    obsStateBand1 := [ { name := "F2", sbid := some "S2", validation1d := some "Good",
                         singleSb1d := some "" } ] }

/-- Store used against claim C9: band-1 holds tile 123 awaiting validation
and tile 456 with NULL columns. -/
def dbC9 : Db :=
  { dbEmpty with
    tileBand1 := [ { tileBlank 123 with pipeline3d := some "WaitingForValidation" },
                   tileBlank 456 ] }

/-- State of dbC9 after calling update_3d_pipeline_val for tile 123 with a
validation link equal to the digit string 456: the WHERE clause compared
tile_id against that link, so the unrelated tile 456 received the status and,
in its link column, the tile number 123. -/
def dbC9after : Db :=
  { dbEmpty with
    tileBand1 := [
      { tileBlank 123 with pipeline3d := some "WaitingForValidation" },
      { tileBlank 456 with pipeline3dVal := some "Good", valLink3d := some "123" } ] }

/-- State of dbC9 after a correctly addressed ingest update of tile 123,
showing the intended parameter binding of the sibling function. -/
def dbC9ingested : Db :=
  { dbEmpty with
    tileBand1 := [
      { tileBlank 123 with pipeline3d := some "WaitingForValidation", pipeline3dIngest := some "IngestRunning" },
      tileBlank 456 ] }

/-- Shape predicate: all four tile slots populated. -/
def populatedFour (r : PartialTileRow) : Prop :=
  r.tile1 ≠ none ∧ r.tile2 ≠ none ∧ r.tile3 ≠ none ∧ r.tile4 ≠ none

/-- Shape predicate: exactly the first two tile slots populated. -/
def populatedEdge (r : PartialTileRow) : Prop :=
  r.tile1 ≠ none ∧ r.tile2 ≠ none ∧ r.tile3 = none ∧ r.tile4 = none

/-- Shape predicate: only the first tile slot populated. -/
def populatedCenter (r : PartialTileRow) : Prop :=
  r.tile1 ≠ none ∧ r.tile2 = none ∧ r.tile3 = none ∧ r.tile4 = none

/-- No two populated tile slots hold equal values. -/
def slotsDistinct (r : PartialTileRow) : Prop :=
  (r.tile1 ≠ none → r.tile1 ≠ r.tile2) ∧ (r.tile1 ≠ none → r.tile1 ≠ r.tile3) ∧
  (r.tile1 ≠ none → r.tile1 ≠ r.tile4) ∧ (r.tile2 ≠ none → r.tile2 ≠ r.tile3) ∧
  (r.tile2 ≠ none → r.tile2 ≠ r.tile4) ∧ (r.tile3 ≠ none → r.tile3 ≠ r.tile4)

/-- The type of the row lowercases to corner or to the boundary-corner
label. -/
def cornerTypeOk (r : PartialTileRow) : Prop :=
  ∃ t, r.type = some t ∧
    (strLower t = "corner" ∨ strLower t = "corner - crosses projection boundary!")

/-- The type of the row lowercases to edge or to the boundary-edge label. -/
def edgeTypeOk (r : PartialTileRow) : Prop :=
  ∃ t, r.type = some t ∧
    (strLower t = "edge" ∨ strLower t = "edge - crosses projection boundary!")

/-- The type of the row lowercases to center. -/
def centerTypeOk (r : PartialTileRow) : Prop :=
  ∃ t, r.type = some t ∧ strLower t = "center"

lemma mem_insertAsc (a x : Int) (l : List Int) : a ∈ insertAsc x l ↔ a = x ∨ a ∈ l := by
  induction l with
  | nil => simp [insertAsc]
  | cons y ys ih =>
    simp only [insertAsc]
    split
    · simp [List.mem_cons]
    · split
      · next h2 =>
        subst h2
        simp only [List.mem_cons]
        tauto
      · simp only [List.mem_cons, ih]
        tauto

lemma sorted_insertAsc (x : Int) (l : List Int) (h : List.Sorted (· < ·) l) :
    List.Sorted (· < ·) (insertAsc x l) := by
  induction l with
  | nil => simp [insertAsc]
  | cons y ys ih =>
    rw [List.sorted_cons] at h
    obtain ⟨hy, hys⟩ := h
    by_cases h1 : x < y
    · simp only [insertAsc, if_pos h1]
      rw [List.sorted_cons]
      refine ⟨?_, ?_⟩
      · intro b hb
        rcases List.mem_cons.mp hb with rfl | hb
        · exact h1
        · exact h1.trans (hy b hb)
      · rw [List.sorted_cons]
        exact ⟨hy, hys⟩
    · by_cases h2 : x = y
      · simp only [insertAsc, if_neg h1, if_pos h2]
        rw [List.sorted_cons]
        exact ⟨hy, hys⟩
      · simp only [insertAsc, if_neg h1, if_neg h2]
        rw [List.sorted_cons]
        refine ⟨?_, ih hys⟩
        intro b hb
        rcases (mem_insertAsc b x ys).mp hb with rfl | hb
        · omega
        · exact hy b hb

lemma mem_sortDedup (a : Int) (l : List Int) : a ∈ sortDedup l ↔ a ∈ l := by
  induction l with
  | nil => simp [sortDedup]
  | cons x xs ih =>
    rw [show sortDedup (x :: xs) = insertAsc x (sortDedup xs) from rfl, mem_insertAsc, ih,
      List.mem_cons]

lemma sorted_sortDedup (l : List Int) : List.Sorted (· < ·) (sortDedup l) := by
  induction l with
  | nil => exact List.sorted_nil
  | cons x xs ih => exact sorted_insertAsc x (sortDedup xs) ih

lemma isNullOrEmpty_iff (x : Option String) : isNullOrEmpty x = true ↔ x = none ∨ x = some "" := by
  cases x with
  | none => simp [isNullOrEmpty]
  | some s => simp [isNullOrEmpty]

lemma lowerEq_iff (x : Option String) (lit : String) :
    lowerEq x lit = true ↔ ∃ s, x = some s ∧ strLower s = lit := by
  cases x <;> simp [lowerEq]

lemma lowerNe_iff (x : Option String) (lit : String) :
    lowerNe x lit = true ↔ ∃ s, x = some s ∧ strLower s ≠ lit := by
  cases x <;> simp [lowerNe]

lemma typeNotBoundary_iff (x : Option String) :
    typeNotBoundary x = true ↔
      ∃ t, x = some t ∧ textContains (strLower t) "crosses projection boundary" = false := by
  cases x <;> simp [typeNotBoundary]

lemma mem_dedupAux {α : Type} [DecidableEq α] (a : α) (l : List α) :
    ∀ seen, a ∈ dedupAux seen l ↔ a ∈ l ∧ a ∉ seen := by
  induction l with
  | nil =>
    intro seen
    simp [dedupAux]
  | cons x xs ih =>
    intro seen
    simp only [dedupAux]
    split
    · next hx =>
      rw [ih seen]
      simp only [List.mem_cons]
      constructor
      · rintro ⟨ha, hn⟩
        exact ⟨Or.inr ha, hn⟩
      · rintro ⟨ha | ha, hn⟩
        · exact absurd (ha ▸ hx) hn
        · exact ⟨ha, hn⟩
    · next hx =>
      simp only [List.mem_cons, ih (x :: seen)]
      constructor
      · rintro (rfl | ⟨ha, hn⟩)
        · exact ⟨Or.inl rfl, hx⟩
        · exact ⟨Or.inr ha, fun hs => hn (Or.inr hs)⟩
      · rintro ⟨ha | ha, hn⟩
        · exact Or.inl ha
        · by_cases hax : a = x
          · exact Or.inl hax
          · refine Or.inr ⟨ha, ?_⟩
            rintro (h | h)
            · exact hax h
            · exact hn h

lemma mem_dedupFirst {α : Type} [DecidableEq α] (a : α) (l : List α) :
    a ∈ dedupFirst l ↔ a ∈ l := by
  rw [dedupFirst, mem_dedupAux]
  simp

lemma bool_eq_of_iff {a b : Bool} (h : a = true ↔ b = true) : a = b := by
  cases a <;> cases b <;> simp_all

lemma exceptOkBind {α β : Type} (a : α) (f : α → Except String β) :
    (Except.ok a >>= f : Except String β) = f a := rfl

lemma exceptErrBind {α β : Type} (e : String) (f : α → Except String β) :
    (Except.error e >>= f : Except String β) = Except.error e := rfl

lemma exceptPure {β : Type} (b : β) : (pure b : Except String β) = Except.ok b := rfl

lemma validate_ok_of (band : String) (h : band = "1" ∨ band = "2") :
    validate_band_number band = Except.ok () := by
  rcases h with rfl | rfl <;> rfl

lemma validate_err_of (band : String) (h1 : band ≠ "1") (h2 : band ≠ "2") :
    validate_band_number band = Except.error bandError := by
  simp [validate_band_number, h1, h2]

lemma obsState_set_get (db : Db) (band : String) (h : band = "1" ∨ band = "2")
    (rows : List ObsStateRow) : obsStateTable (setObsStateTable db band rows) band = rows := by
  rcases h with rfl | rfl <;> simp [obsStateTable, setObsStateTable]

lemma upsertObsRow_spec (rows : List ObsStateRow) (name : String)
    (f : ObsStateRow → ObsStateRow) (fresh : ObsStateRow) (P : ObsStateRow → Prop)
    (hfP : ∀ r, P (f r)) (hfreshP : P fresh)
    (hfname : ∀ r, (f r).name = r.name) (hfreshname : fresh.name = name) :
    (∀ r ∈ (upsertObsRow rows name f fresh).1, r.name = name → P r) ∧
    (∀ r ∈ (upsertObsRow rows name f fresh).1, r.name ≠ name → r ∈ rows) ∧
    (upsertObsRow rows name f fresh).2 = 1 := by
  unfold upsertObsRow
  split
  · next hany =>
    refine ⟨?_, ?_, rfl⟩
    · intro r hr hname
      rcases List.mem_map.mp hr with ⟨x, hx, hrx⟩
      by_cases hxn : x.name = name
      · rw [if_pos hxn] at hrx
        exact hrx ▸ hfP x
      · rw [if_neg hxn] at hrx
        rw [← hrx] at hname
        exact absurd hname hxn
    · intro r hr hname
      rcases List.mem_map.mp hr with ⟨x, hx, hrx⟩
      by_cases hxn : x.name = name
      · rw [if_pos hxn] at hrx
        exfalso
        apply hname
        rw [← hrx, hfname x, hxn]
      · rw [if_neg hxn] at hrx
        exact hrx ▸ hx
  · next hany =>
    refine ⟨?_, ?_, rfl⟩
    · intro r hr hname
      rcases List.mem_append.mp hr with hmem | hmem
      · exfalso
        apply hany
        rw [List.any_eq_true]
        exact ⟨r, hmem, by simp [hname]⟩
      · have := List.mem_singleton.mp hmem
        rw [this]
        exact hfreshP
    · intro r hr hname
      rcases List.mem_append.mp hr with hmem | hmem
      · exact hmem
      · exfalso
        apply hname
        rw [List.mem_singleton.mp hmem, hfreshname]

/-- C10: confirmed.  If the store raises while executing a statement, the
access layer catches it and returns zero affected rows on the update path and
an empty result list on the query path; the zero of a failed update equals
the zero of an update whose target key matched no row, so the two outcomes
are indistinguishable, and the total return types of execute_update_query and
execute_query show that no store error propagates to the caller. -/
theorem c10_errors_swallowed :
    (∀ e : String, execute_update_query (Except.error e) = 0) ∧
    (∀ e : String, execute_update_query (Except.error e) = execute_update_query (Except.ok 0)) ∧
    (∀ (α : Type) (e : String), execute_query α (Except.error e) = []) ∧
    (∀ (α : Type), execute_query α (Except.ok none) = []) :=
  ⟨fun _ => rfl, fun _ => rfl, fun _ _ => rfl, fun _ => rfl⟩

/-- C9: evaluation at the failing input.  update_3d_pipeline_val binds its
parameters in the order (status, tile_number, val_link) against the
placeholders (3d_pipeline_val, 3d_val_link, tile_id): asking it to record a
validation outcome for tile 123 leaves tile 123 untouched and affects zero
rows, and when the link string happens to be the digit string 456 the
unrelated tile 456 receives the status and, in its link column, the tile
number 123.  The sibling update_3d_pipeline_ingest updates exactly the
addressed row, showing the intended binding. -/
theorem c9_val_param_order :
    update_3d_pipeline_val "123" "1" "Good" "https-validation-link" dbC9 =
      Except.ok (dbC9, 0) ∧
    update_3d_pipeline_val "123" "1" "Good" "456" dbC9 = Except.ok (dbC9after, 1) ∧
    update_3d_pipeline_ingest "123" "1" "IngestRunning" dbC9 =
      Except.ok (dbC9ingested, 1) :=
  ⟨by decide, by decide, by decide⟩

/-- C3: confirmed.  For every tile present in the validation worksheet of its
band whose stored 3d_pipeline_ingest value is anything other than exactly
IngestRunning, recording an ingest transition outside test mode raises a
ValueError and leaves the worksheets and the database unchanged. -/
theorem c3_ingest_guard (tile_number band status : String) (env : IngestEnv) (row : SheetRow)
    (hfind : (bandSheet env (get_band_number band)).find?
      (fun r => r.tile_id = tile_number) = some row)
    (hst : row.ingest3d ≠ "IngestRunning") :
    update_validation_spreadsheet tile_number band status false env =
      { error := some ingestGuardError, env := env } := by
  simp [update_validation_spreadsheet, hfind, hst]

/-- C3 witness: the guard theorem applied to tile 1240 whose stored status is
IngestFailed. -/
theorem c3_ingest_guard_witness :
    update_validation_spreadsheet "1240" "943MHz" "Ingested" false envC3 =
      { error := some ingestGuardError, env := envC3 } :=
  c3_ingest_guard "1240" "943MHz" "Ingested" envC3
    { tile_id := "1240", ingest3d := "IngestFailed" } (by decide) (by decide)

/-- C5 counterexample: with stored validation Good and stored single-block
status Done, an upsert whose incoming value is blank overwrites both stored
values with the empty string, so a blank incoming value does change a
previously non-blank stored value. -/
theorem c5_upsert_counterexample :
    update_1d_pipeline_validation_status "F2" "S2" "1" "" dbC5 = Except.ok (dbC5afterVal, 1) ∧
    update_single_sb_1d_pipeline_status "F2" "S2" "1" "" dbC5 = Except.ok (dbC5afterSb, 1) ∧
    (dbC5.obsStateBand1.map fun r => r.validation1d) = [some "Good"] ∧
    (dbC5afterVal.obsStateBand1.map fun r => r.validation1d) = [some ""] ∧
    (dbC5.obsStateBand1.map fun r => r.singleSb1d) = [some "Done"] ∧
    (dbC5afterSb.obsStateBand1.map fun r => r.singleSb1d) = [some ""] :=
  ⟨by decide, by decide, by decide, by decide, by decide, by decide⟩

/-- C5 amended: the observation scalar upserts overwrite unconditionally.
For a valid band each call succeeds, reports one affected row, sets the named
column of every row keyed by the field name to the incoming status whether
that status is blank or not, and every other row of the table is carried over
unchanged. -/
theorem c5_upsert_amended (band : String) (hband : band = "1" ∨ band = "2")
    (field_name sbid status : String) (db : Db) :
    (∃ db1, update_1d_pipeline_validation_status field_name sbid band status db =
        Except.ok (db1, 1) ∧
      (∀ r ∈ obsStateTable db1 band, r.name = field_name → r.validation1d = some status) ∧
      (∀ r ∈ obsStateTable db1 band, r.name ≠ field_name → r ∈ obsStateTable db band)) ∧
    (∃ db2, update_single_sb_1d_pipeline_status field_name sbid band status db =
        Except.ok (db2, 1) ∧
      (∀ r ∈ obsStateTable db2 band, r.name = field_name → r.singleSb1d = some status) ∧
      (∀ r ∈ obsStateTable db2 band, r.name ≠ field_name → r ∈ obsStateTable db band)) := by
  constructor
  · have hspec := upsertObsRow_spec (obsStateTable db band) field_name
      (fun r => { r with validation1d := some status })
      { name := field_name, sbid := some sbid, validation1d := some status, singleSb1d := none }
      (fun r => r.validation1d = some status) (fun _ => rfl) rfl (fun _ => rfl) rfl
    refine ⟨setObsStateTable db band (upsertObsRow (obsStateTable db band) field_name
      (fun r => { r with validation1d := some status })
      { name := field_name, sbid := some sbid, validation1d := some status,
        singleSb1d := none }).1, ?_, ?_, ?_⟩
    · simp only [update_1d_pipeline_validation_status, validate_ok_of band hband,
        exceptOkBind, exceptPure, hspec.2.2]
    · rw [obsState_set_get db band hband]
      exact hspec.1
    · rw [obsState_set_get db band hband]
      exact hspec.2.1
  · have hspec := upsertObsRow_spec (obsStateTable db band) field_name
      (fun r => { r with singleSb1d := some status })
      { name := field_name, sbid := some sbid, validation1d := none, singleSb1d := some status }
      (fun r => r.singleSb1d = some status) (fun _ => rfl) rfl (fun _ => rfl) rfl
    refine ⟨setObsStateTable db band (upsertObsRow (obsStateTable db band) field_name
      (fun r => { r with singleSb1d := some status })
      { name := field_name, sbid := some sbid, validation1d := none,
        singleSb1d := some status }).1, ?_, ?_, ?_⟩
    · simp only [update_single_sb_1d_pipeline_status, validate_ok_of band hband,
        exceptOkBind, exceptPure, hspec.2.2]
    · rw [obsState_set_get db band hband]
      exact hspec.1
    · rw [obsState_set_get db band hband]
      exact hspec.2.1

/-- C5 witness: the amended upsert theorem applied to band 1, observation F2
and a blank incoming status over the store dbC5. -/
theorem c5_upsert_amended_witness :
    (∃ db1, update_1d_pipeline_validation_status "F2" "S2" "1" "" dbC5 = Except.ok (db1, 1) ∧
      (∀ r ∈ obsStateTable db1 "1", r.name = "F2" → r.validation1d = some "") ∧
      (∀ r ∈ obsStateTable db1 "1", r.name ≠ "F2" → r ∈ obsStateTable dbC5 "1")) ∧
    (∃ db2, update_single_sb_1d_pipeline_status "F2" "S2" "1" "" dbC5 = Except.ok (db2, 1) ∧
      (∀ r ∈ obsStateTable db2 "1", r.name = "F2" → r.singleSb1d = some "") ∧
      (∀ r ∈ obsStateTable db2 "1", r.name ≠ "F2" → r ∈ obsStateTable dbC5 "1")) :=
  c5_upsert_amended "1" (Or.inl rfl) "F2" "S2" "" dbC5

/-- C6 counterexample: update_partial_tile_1d_pipeline_status is band-scoped
but never calls validate_band_number; called with band 3 it does not raise,
it proceeds to issue the UPDATE against the missing band-3 table and reports
zero affected rows, while the validator itself rejects band 3. -/
theorem c6_band_validation_counterexample :
    update_partial_tile_1d_pipeline_status "F" none none none none "3" "Running" dbEmpty =
      (dbEmpty, 0) ∧
    validate_band_number "3" = Except.error bandError :=
  ⟨by decide, by decide⟩

/-- C6 amended: every embedded band-scoped operation that calls
validate_band_number raises ValueError on a band whose string form is neither
1 nor 2, before any statement reaches the store, and bands passed as the
integers 1 or 2 are accepted through the str coercion; the band-scoped
update_partial_tile_1d_pipeline_status, however, performs no validation and
silently executes against the store, affecting zero rows. -/
theorem c6_band_validation_amended (band : String) (h1 : band ≠ "1") (h2 : band ≠ "2") :
    validate_band_number band = Except.error bandError ∧
    (∀ tile status db, update_3d_pipeline_ingest tile band status db =
      Except.error bandError) ∧
    (∀ tile status link db, update_3d_pipeline_val tile band status link db =
      Except.error bandError) ∧
    (∀ field_name sbid status db,
      update_1d_pipeline_validation_status field_name sbid band status db =
        Except.error bandError) ∧
    (∀ field_name sbid status db,
      update_single_sb_1d_pipeline_status field_name sbid band status db =
        Except.error bandError) ∧
    (∀ db, get_tiles_for_pipeline_run band db = Except.error bandError) ∧
    (∀ db, get_tiles_for_ingest band db = Except.error bandError) ∧
    validate_band_number (toString (1 : Int)) = Except.ok () ∧
    validate_band_number (toString (2 : Int)) = Except.ok () ∧
    (∀ field_name t1 t2 t3 t4 status db,
      update_partial_tile_1d_pipeline_status field_name t1 t2 t3 t4 band status db =
        (db, 0)) := by
  have hv := validate_err_of band h1 h2
  refine ⟨hv, ?_, ?_, ?_, ?_, ?_, ?_, by decide, by decide, ?_⟩
  · intro tile status db
    simp only [update_3d_pipeline_ingest, hv, exceptErrBind]
  · intro tile status link db
    simp only [update_3d_pipeline_val, hv, exceptErrBind]
  · intro field_name sbid status db
    simp only [update_1d_pipeline_validation_status, hv, exceptErrBind]
  · intro field_name sbid status db
    simp only [update_single_sb_1d_pipeline_status, hv, exceptErrBind]
  · intro db
    simp only [get_tiles_for_pipeline_run, hv, exceptErrBind]
  · intro db
    simp only [get_tiles_for_ingest, hv, exceptErrBind]
  · intro field_name t1 t2 t3 t4 status db
    simp only [update_partial_tile_1d_pipeline_status, if_neg h1, if_neg h2]

/-- C6 witness: the amended theorem applied at band 3, with the conclusions
instantiated on the empty store. -/
theorem c6_band_validation_witness :
    get_tiles_for_ingest "3" dbEmpty = Except.error bandError ∧
    update_3d_pipeline_ingest "5" "3" "Ingested" dbEmpty = Except.error bandError ∧
    update_partial_tile_1d_pipeline_status "F" none none none none "3" "Run" dbEmpty =
      (dbEmpty, 0) ∧
    validate_band_number (toString (1 : Int)) = Except.ok () := by
  have h := c6_band_validation_amended "3" (by decide) (by decide)
  exact ⟨h.2.2.2.2.2.2.1 dbEmpty, h.2.1 "5" "Ingested" dbEmpty,
    h.2.2.2.2.2.2.2.2.2 "F" none none none none "Run" dbEmpty, h.2.2.2.2.2.2.2.1⟩

/-- C4: confirmed.  For a valid band the ingest-readiness query succeeds and
returns a flat, strictly ascending, duplicate-free list of ids containing a
tile id exactly when some row of the band tile table carries that id, its
validation column lowercases to good, and its ingest column is NULL or the
empty string; Good, GOOD and good all lowercase to good, while Bad, the blank
string and NULL never do. -/
theorem c4_ingest_readiness (band : String) (db : Db) (h : band = "1" ∨ band = "2") :
    ∃ l : List Int, get_tiles_for_ingest band db = Except.ok l ∧
      List.Sorted (· < ·) l ∧
      ∀ x : Int, x ∈ l ↔ ∃ t ∈ tileTable db band, t.tile_id = x ∧
        (∃ v, t.pipeline3dVal = some v ∧ strLower v = "good") ∧
        (t.pipeline3dIngest = none ∨ t.pipeline3dIngest = some "") := by
  refine ⟨sortDedup (((tileTable db band).filter fun t =>
      lowerEq t.pipeline3dVal "good" && isNullOrEmpty t.pipeline3dIngest).map fun t =>
        t.tile_id), ?_, sorted_sortDedup _, ?_⟩
  · simp only [get_tiles_for_ingest, validate_ok_of band h, exceptOkBind, exceptPure]
  · intro x
    rw [mem_sortDedup]
    simp only [List.mem_map, List.mem_filter, Bool.and_eq_true, lowerEq_iff, isNullOrEmpty_iff]
    constructor
    · rintro ⟨t, ⟨ht, hval, hing⟩, rfl⟩
      exact ⟨t, ht, rfl, hval, hing⟩
    · rintro ⟨t, ht, rfl, hval, hing⟩
      exact ⟨t, ⟨ht, hval, hing⟩, rfl⟩

/-- C4 witness: the readiness theorem applied to band 1 over the store dbC4,
whose tiles cover the Good, GOOD, Bad and already-ingested cases. -/
theorem c4_ingest_readiness_witness :
    ∃ l : List Int, get_tiles_for_ingest "1" dbC4 = Except.ok l ∧
      List.Sorted (· < ·) l ∧
      ∀ x : Int, x ∈ l ↔ ∃ t ∈ tileTable dbC4 "1", t.tile_id = x ∧
        (∃ v, t.pipeline3dVal = some v ∧ strLower v = "good") ∧
        (t.pipeline3dIngest = none ∨ t.pipeline3dIngest = some "") :=
  c4_ingest_readiness "1" dbC4 (Or.inl rfl)

/-- C1 counterexample: in the store dbC1 both band-1 tiles satisfy the
readiness predicate exactly as claim C1 words it, tile 1 through the
mixed-case flag Completed on its observation and tile 2 through its
whitespace-only stage-3 field under a COMPLETED observation, yet the stage-3
readiness query returns the empty worklist: the code compares the flag
case-sensitively and accepts only NULL or the empty string, not general
whitespace. -/
theorem c1_stage3_counterexample :
    get_tiles_for_pipeline_run "1" dbC1 = Except.ok [] ∧
    tileBlank 1 ∈ tileTable dbC1 "1" ∧
    readyForStage3Claimed dbC1 (tileBlank 1) = true ∧
    { tileBlank 2 with pipeline3d := some " " } ∈ tileTable dbC1 "1" ∧
    readyForStage3Claimed dbC1 { tileBlank 2 with pipeline3d := some " " } = true :=
  ⟨by decide, by decide, by decide, by decide, by decide⟩

/-- C1 amended: for a valid band the stage-3 readiness query succeeds and
returns a strictly ascending, duplicate-free worklist containing a tile id
exactly when some row of the band tile table carries that id, its 3d_pipeline
column is NULL or the empty string (whitespace does not count as empty), and
some associated observation has cube_state equal to COMPLETED exactly, the
comparison being case-sensitive; the deterministic order makes repeated calls
on unchanged state yield identical worklists. -/
theorem c1_stage3_amended (band : String) (db : Db) (h : band = "1" ∨ band = "2") :
    ∃ l : List Int, get_tiles_for_pipeline_run band db = Except.ok l ∧
      List.Sorted (· < ·) l ∧
      ∀ x : Int, x ∈ l ↔ ∃ t ∈ tileTable db band, t.tile_id = x ∧
        (t.pipeline3d = none ∨ t.pipeline3d = some "") ∧
        ∃ a ∈ db.associated, a.tile = x ∧
          ∃ o ∈ db.observation, o.name = a.name ∧ o.cube_state = some "COMPLETED" := by
  refine ⟨sortDedup (((tileTable db band).filter fun t =>
      (db.associated.any fun a => a.tile = t.tile_id &&
        (db.observation.any fun o => o.name = a.name && o.cube_state = some "COMPLETED")) &&
      isNullOrEmpty t.pipeline3d).map fun t => t.tile_id), ?_, sorted_sortDedup _, ?_⟩
  · simp only [get_tiles_for_pipeline_run, validate_ok_of band h, exceptOkBind, exceptPure]
  · intro x
    rw [mem_sortDedup]
    simp only [List.mem_map, List.mem_filter, Bool.and_eq_true, List.any_eq_true,
      decide_eq_true_eq, isNullOrEmpty_iff]
    constructor
    · rintro ⟨t, ⟨ht, ⟨a, ha, hat, o, ho, hon, hoc⟩, hpipe⟩, rfl⟩
      exact ⟨t, ht, rfl, hpipe, a, ha, hat, o, ho, hon, hoc⟩
    · rintro ⟨t, ht, rfl, hpipe, a, ha, hat, o, ho, hon, hoc⟩
      exact ⟨t, ⟨ht, ⟨a, ha, hat, o, ho, hon, hoc⟩, hpipe⟩, rfl⟩

/-- C1 witness: the amended theorem applied to band 1 over the store dbC1. -/
theorem c1_stage3_amended_witness :
    ∃ l : List Int, get_tiles_for_pipeline_run "1" dbC1 = Except.ok l ∧
      List.Sorted (· < ·) l ∧
      ∀ x : Int, x ∈ l ↔ ∃ t ∈ tileTable dbC1 "1", t.tile_id = x ∧
        (t.pipeline3d = none ∨ t.pipeline3d = some "") ∧
        ∃ a ∈ dbC1.associated, a.tile = x ∧
          ∃ o ∈ dbC1.observation, o.name = a.name ∧ o.cube_state = some "COMPLETED" :=
  c1_stage3_amended "1" dbC1 (Or.inl rfl)

lemma insertPartialRow_some (tbl : List PartialTileRow) (r : PartialTileRow)
    (tbl2 : List PartialTileRow) (h : insertPartialRow tbl r = some tbl2) :
    rowChecks r = true ∧ genKey r ∈ tbl2.map genKey ∧
      ∀ k ∈ tbl.map genKey, k ∈ tbl2.map genKey := by
  unfold insertPartialRow at h
  by_cases hc : rowChecks r = true
  · rw [if_pos hc] at h
    by_cases hd : (tbl.any fun x => genKey x = genKey r) = true
    · rw [if_pos hd] at h
      obtain rfl := Option.some.inj h
      refine ⟨hc, ?_, fun k hk => hk⟩
      rcases List.any_eq_true.mp hd with ⟨x, hx, hxk⟩
      rw [decide_eq_true_eq] at hxk
      exact List.mem_map.mpr ⟨x, hx, hxk⟩
    · rw [if_neg hd] at h
      obtain rfl := Option.some.inj h
      refine ⟨hc, ?_, ?_⟩
      · rw [List.map_append]
        exact List.mem_append.mpr (Or.inr (by simp))
      · intro k hk
        rw [List.map_append]
        exact List.mem_append.mpr (Or.inl hk)
  · rw [if_neg hc] at h
    exact absurd h (by simp)

lemma insertPartialRow_noop (tbl : List PartialTileRow) (r : PartialTileRow)
    (hc : rowChecks r = true) (hk : genKey r ∈ tbl.map genKey) :
    insertPartialRow tbl r = some tbl := by
  unfold insertPartialRow
  rcases List.mem_map.mp hk with ⟨x, hx, hfx⟩
  rw [if_pos hc, if_pos (List.any_eq_true.mpr ⟨x, hx, by simp [hfx]⟩)]

lemma importBatch_some (tbl : List PartialTileRow) (rows : List PartialTileRow)
    (tbl1 : List PartialTileRow) (h : importBatch tbl rows = some tbl1) :
    (∀ k ∈ tbl.map genKey, k ∈ tbl1.map genKey) ∧
      ∀ r ∈ rows, rowChecks r = true ∧ genKey r ∈ tbl1.map genKey := by
  induction rows generalizing tbl with
  | nil =>
    simp only [importBatch, Option.some.injEq] at h
    subst h
    exact ⟨fun k hk => hk, by simp⟩
  | cons r rs ih =>
    simp only [importBatch] at h
    cases hins : insertPartialRow tbl r with
    | none =>
      rw [hins] at h
      exact absurd h (by simp)
    | some t2 =>
      rw [hins] at h
      obtain ⟨hmono, hall⟩ := ih t2 h
      obtain ⟨hc, hkey, hmono0⟩ := insertPartialRow_some tbl r t2 hins
      refine ⟨fun k hk => hmono k (hmono0 k hk), ?_⟩
      intro x hx
      rcases List.mem_cons.mp hx with rfl | hx
      · exact ⟨hc, hmono _ hkey⟩
      · exact hall x hx

lemma importBatch_noop (tbl : List PartialTileRow) (rows : List PartialTileRow)
    (hall : ∀ r ∈ rows, rowChecks r = true ∧ genKey r ∈ tbl.map genKey) :
    importBatch tbl rows = some tbl := by
  induction rows with
  | nil => rfl
  | cons r rs ih =>
    simp only [importBatch]
    obtain ⟨hc, hk⟩ := hall r (List.mem_cons_self r rs)
    rw [insertPartialRow_noop tbl r hc hk]
    exact ih fun x hx => hall x (List.mem_cons_of_mem r hx)

/-- C7: confirmed.  Importing a partial-tile snapshot is idempotent: if a
first import of the sheet into some table state succeeds and produces a new
table state, importing the same sheet again over that state succeeds and
returns it unchanged, because every incoming row now collides on its
generated natural key (observation, four normalized tile slots, type) and the
ON CONFLICT DO NOTHING path silently ignores it, preserving the row count and
every status field. -/
theorem c7_import_idempotent (tbl tbl1 : List PartialTileRow) (sheet : List SheetTileRow)
    (h : insert_partial_tile_data tbl sheet = some tbl1) :
    insert_partial_tile_data tbl1 sheet = some tbl1 := by
  unfold insert_partial_tile_data at h ⊢
  obtain ⟨hmono, hall⟩ := importBatch_some tbl (sheet.map rowToRecord) tbl1 h
  exact importBatch_noop tbl1 (sheet.map rowToRecord) hall

/-- C7 witness: the idempotence theorem applied to the two-row snapshot
sheetC7 imported into the empty table, whose first import produces tblC7. -/
theorem c7_import_idempotent_witness :
    insert_partial_tile_data tblC7 sheetC7 = some tblC7 :=
  c7_import_idempotent [] tblC7 sheetC7 (by decide)

lemma distinctSlots_spec (r : PartialTileRow) (h : distinctSlots r = true) : slotsDistinct r := by
  refine ⟨?_, ?_, ?_, ?_, ?_, ?_⟩ <;>
    (intro hne heq
     rw [heq] at hne
     simp [distinctSlots, heq, Option.isSome_iff_ne_none, hne] at h)

lemma checkCorner_spec (r : PartialTileRow) (t : String) (htype : r.type = some t)
    (h : checkCorner r = true) (hp : populatedFour r) :
    strLower t = "corner" ∨ strLower t = "corner - crosses projection boundary!" := by
  obtain ⟨h1, h2, h3, h4⟩ := hp
  simp [checkCorner, htype, Option.isSome_iff_ne_none, h1, h2, h3, h4] at h
  exact h

lemma checkEdge_spec (r : PartialTileRow) (t : String) (htype : r.type = some t)
    (h : checkEdge r = true) (hp : populatedEdge r) :
    strLower t = "edge" ∨ strLower t = "edge - crosses projection boundary!" := by
  obtain ⟨h1, h2, h3, h4⟩ := hp
  simp [checkEdge, htype, Option.isSome_iff_ne_none, h1, h2, h3, h4] at h
  exact h

lemma checkCenter_spec (r : PartialTileRow) (t : String) (htype : r.type = some t)
    (h : checkCenter r = true) (hp : populatedCenter r) : strLower t = "center" := by
  obtain ⟨h1, h2, h3, h4⟩ := hp
  simp [checkCenter, htype, Option.isSome_iff_ne_none, h1, h2, h3, h4] at h
  exact h

/-- C8: confirmed.  Every sheet row accepted by the CHECK constraints of the
partial-tile table satisfies the shape invariants: no two populated slots
hold equal values; four populated slots force a type lowercasing to corner or
to the boundary-corner label; exactly the first two slots force a type
lowercasing to edge or to the boundary-edge label; a single populated slot
forces the center type.  Concretely, the four distinct slots 11791, 11792,
11852, 11853 with the boundary-corner type are accepted, and the same slots
with type center are rejected. -/
theorem c8_shape_invariants :
    (∀ row : SheetTileRow, rowChecks (rowToRecord row) = true →
      slotsDistinct (rowToRecord row) ∧
      (populatedFour (rowToRecord row) → cornerTypeOk (rowToRecord row)) ∧
      (populatedEdge (rowToRecord row) → edgeTypeOk (rowToRecord row)) ∧
      (populatedCenter (rowToRecord row) → centerTypeOk (rowToRecord row))) ∧
    rowChecks (rowToRecord sheetCornerRow) = true ∧
    rowChecks (rowToRecord sheetCenterRow) = false := by
  refine ⟨?_, by decide, by decide⟩
  intro row h
  have htype : (rowToRecord row).type = some row.c6 := rfl
  simp only [rowChecks, Bool.and_eq_true] at h
  obtain ⟨⟨⟨hd, hcor⟩, hedge⟩, hcen⟩ := h
  refine ⟨distinctSlots_spec _ hd, ?_, ?_, ?_⟩
  · intro hp
    exact ⟨row.c6, htype, checkCorner_spec _ row.c6 htype hcor hp⟩
  · intro hp
    exact ⟨row.c6, htype, checkEdge_spec _ row.c6 htype hedge hp⟩
  · intro hp
    exact ⟨row.c6, htype, checkCenter_spec _ row.c6 htype hcen hp⟩

/-- C8 witness: the invariants instantiated on the accepted boundary-corner
row sheetCornerRow. -/
theorem c8_shape_invariants_witness :
    slotsDistinct (rowToRecord sheetCornerRow) ∧
    (populatedFour (rowToRecord sheetCornerRow) → cornerTypeOk (rowToRecord sheetCornerRow)) ∧
    (populatedEdge (rowToRecord sheetCornerRow) → edgeTypeOk (rowToRecord sheetCornerRow)) ∧
    (populatedCenter (rowToRecord sheetCornerRow) →
      centerTypeOk (rowToRecord sheetCornerRow)) :=
  c8_shape_invariants.1 sheetCornerRow (by decide)

lemma blocksFull_iff (pt : List PartialTileRow) (o : String) :
    blocksFull pt o = true ↔
      ∃ p2 ∈ pt, p2.observation = o ∧
        ∃ s2, p2.pipeline1d = some s2 ∧ strLower s2 ≠ "completed" := by
  unfold blocksFull
  simp only [List.any_eq_true, Bool.and_eq_true, decide_eq_true_eq, lowerNe_iff]

lemma fullGroupFlag_iff (pt : List PartialTileRow) (o : String) (v st : Option String) :
    fullGroupFlag pt o v st = true ↔
      ((¬ ∃ p2 ∈ pt, p2.observation = o ∧
          ∃ s2, p2.pipeline1d = some s2 ∧ strLower s2 ≠ "completed") ∧
        (v = none ∨ v = some "") ∧ ∃ s2, st = some s2 ∧ strLower s2 = "completed") := by
  unfold fullGroupFlag
  by_cases hb : blocksFull pt o = true
  · rw [if_pos hb]
    refine iff_of_false Bool.false_ne_true ?_
    rintro ⟨hno, _, _⟩
    exact hno ((blocksFull_iff pt o).mp hb)
  · rw [if_neg hb]
    have hno : ¬ ∃ p2 ∈ pt, p2.observation = o ∧
        ∃ s2, p2.pipeline1d = some s2 ∧ strLower s2 ≠ "completed" :=
      fun hex => hb ((blocksFull_iff pt o).mpr hex)
    by_cases hc : (isNullOrEmpty v && lowerEq st "completed") = true
    · rw [if_pos hc]
      rw [Bool.and_eq_true, isNullOrEmpty_iff, lowerEq_iff] at hc
      exact iff_of_true rfl ⟨hno, hc.1, hc.2⟩
    · rw [if_neg hc]
      refine iff_of_false Bool.false_ne_true ?_
      rintro ⟨_, hv, hst⟩
      apply hc
      rw [Bool.and_eq_true, isNullOrEmpty_iff, lowerEq_iff]
      exact ⟨hv, hst⟩

lemma nonEdgeHit_iff (pt : List PartialTileRow) (obsSt : List ObsStateRow) (o : String) :
    nonEdgeHit pt obsSt o = true ↔
      ∃ p2 ∈ pt, p2.observation = o ∧
        (∃ ob2 ∈ obsSt, ob2.name = p2.observation ∧
          (ob2.validation1d = none ∨ ob2.validation1d = some "")) ∧
        (∃ ty, p2.type = some ty ∧
          textContains (strLower ty) "crosses projection boundary" = false) ∧
        (∃ s2, p2.pipeline1d = some s2 ∧ strLower s2 = "completed") := by
  unfold nonEdgeHit
  simp only [List.any_eq_true, Bool.and_eq_true, decide_eq_true_eq, typeNotBoundary_iff,
    lowerEq_iff, isNullOrEmpty_iff]
  constructor
  · rintro ⟨pin, hpin, obIn, hobIn, ⟨⟨⟨hname, hty⟩, hcomp⟩, hval⟩, hobs⟩
    exact ⟨pin, hpin, hobs, ⟨obIn, hobIn, hname, hval⟩, hty, hcomp⟩
  · rintro ⟨p2, hp2, hobs, ⟨ob2, hob2, hname, hval⟩, hty, hcomp⟩
    exact ⟨p2, hp2, ob2, hob2, ⟨⟨⟨hname, hty⟩, hcomp⟩, hval⟩, hobs⟩

lemma mem_groupKeys (pt : List PartialTileRow) (obsSt : List ObsStateRow) (k : GroupKey) :
    k ∈ groupKeys pt obsSt ↔
      ∃ p ∈ pt, ∃ ob ∈ obsSt, ob.name = p.observation ∧
        k = { obs := p.observation, sbid := p.sbid, validation := ob.validation1d,
              status := p.pipeline1d } := by
  unfold groupKeys
  simp only [List.mem_flatMap, List.mem_map, List.mem_filter, decide_eq_true_eq]
  constructor
  · rintro ⟨p, hp, ob, ⟨hob, hname⟩, hk⟩
    exact ⟨p, hp, ob, hob, hname, hk.symm⟩
  · rintro ⟨p, hp, ob, hob, hname, hk⟩
    exact ⟨p, hp, ob, ⟨hob, hname⟩, hk.symm⟩

/-- C2 counterexample: in the store dbC2 the single observation F1 has a
Completed center row and a Running edge row.  The full completeness query
returns two rows for the one observation key, not one boolean per key, and
the boundary-ignoring query reports true for F1 although its non-boundary
sibling rows are not all completed, because the source implements it as an
existence check; the claim-side predicate evaluates to false there. -/
theorem c2_completion_counterexample :
    get_observations_with_complete_partial_tiles "1" dbC2 =
      [("F1", some "SB", false), ("F1", some "SB", false)] ∧
    get_observations_non_edge_rows "1" dbC2 =
      [("F1", some "SB", true), ("F1", some "SB", true)] ∧
    nonEdgeCompleteClaimed dbC2.partialBand1 dbC2.obsStateBand1 "F1" = false :=
  ⟨by decide, by decide, by decide⟩

/-- C2 amended: the full completeness query emits one row per distinct
(observation, sbid, observation-validation, pipeline-status) group of the
partial-tile and observation join, possibly several rows per observation; an
emitted boolean is true exactly when no sibling row of the observation has a
non-NULL status lowercasing to something other than completed, the
observation validation is NULL or empty, and the status of the group itself
lowercases to completed, so siblings with a NULL status never block.  The
boundary-ignoring query emits one row per partial-tile row; its boolean is
true exactly when there exists at least one sibling row with a non-boundary
type, a status lowercasing to completed and a joined observation row with
blank validation, an existence check rather than a requirement that all
non-boundary siblings be completed. -/
theorem c2_completion_amended (band : String) (db : Db) (o : String) (s : Option String)
    (b : Bool) :
    ((o, s, b) ∈ get_observations_with_complete_partial_tiles band db ↔
      ∃ p ∈ partialTable db band, ∃ ob ∈ obsStateTable db band,
        ob.name = p.observation ∧ o = p.observation ∧ s = p.sbid ∧
        (b = true ↔
          (¬ ∃ p2 ∈ partialTable db band, p2.observation = p.observation ∧
            ∃ s2, p2.pipeline1d = some s2 ∧ strLower s2 ≠ "completed") ∧
          (ob.validation1d = none ∨ ob.validation1d = some "") ∧
          ∃ s2, p.pipeline1d = some s2 ∧ strLower s2 = "completed")) ∧
    ((o, s, b) ∈ get_observations_non_edge_rows band db ↔
      ∃ p ∈ partialTable db band, o = p.observation ∧ s = p.sbid ∧
        (b = true ↔
          ∃ p2 ∈ partialTable db band, p2.observation = p.observation ∧
            (∃ ob2 ∈ obsStateTable db band, ob2.name = p2.observation ∧
              (ob2.validation1d = none ∨ ob2.validation1d = some "")) ∧
            (∃ ty, p2.type = some ty ∧
              textContains (strLower ty) "crosses projection boundary" = false) ∧
            (∃ s2, p2.pipeline1d = some s2 ∧ strLower s2 = "completed"))) := by
  constructor
  · unfold get_observations_with_complete_partial_tiles
    rw [List.mem_map]
    constructor
    · rintro ⟨k, hk, heq⟩
      rw [mem_dedupFirst] at hk
      rcases (mem_groupKeys _ _ k).mp hk with ⟨p, hp, ob, hob, hname, rfl⟩
      simp only [Prod.mk.injEq] at heq
      obtain ⟨ho, hs, hb⟩ := heq
      refine ⟨p, hp, ob, hob, hname, ho.symm, hs.symm, ?_⟩
      rw [← hb]
      exact fullGroupFlag_iff (partialTable db band) p.observation ob.validation1d p.pipeline1d
    · rintro ⟨p, hp, ob, hob, hname, rfl, rfl, hbiff⟩
      refine ⟨⟨p.observation, p.sbid, ob.validation1d, p.pipeline1d⟩, ?_, ?_⟩
      · rw [mem_dedupFirst]
        exact (mem_groupKeys _ _ _).mpr ⟨p, hp, ob, hob, hname, rfl⟩
      · have hflag : fullGroupFlag (partialTable db band) p.observation ob.validation1d
            p.pipeline1d = b :=
          bool_eq_of_iff ((fullGroupFlag_iff _ _ _ _).trans hbiff.symm)
        rw [hflag]
  · unfold get_observations_non_edge_rows
    rw [List.mem_map]
    constructor
    · rintro ⟨p, hp, heq⟩
      simp only [Prod.mk.injEq] at heq
      obtain ⟨ho, hs, hb⟩ := heq
      refine ⟨p, hp, ho.symm, hs.symm, ?_⟩
      rw [← hb]
      exact nonEdgeHit_iff (partialTable db band) (obsStateTable db band) p.observation
    · rintro ⟨p, hp, rfl, rfl, hbiff⟩
      refine ⟨p, hp, ?_⟩
      have hflag : nonEdgeHit (partialTable db band) (obsStateTable db band)
          p.observation = b :=
        bool_eq_of_iff ((nonEdgeHit_iff _ _ _).trans hbiff.symm)
      rw [hflag]
